import Mathlib

/-!
Shallow embedding of the Discord presence-tracking bot's session and
statistics logic (src/utils/session-manager.ts, src/services/activity-query.ts,
src/services/statistics.ts, src/services/export.ts).

Modelling conventions:
* JavaScript numbers holding timestamps, durations and activity types are
  modelled as `Int` (all arithmetic in the sources is integer arithmetic on
  millisecond counts); the two floating-point divisions (`totalHours`,
  `averageSessionDuration`) are modelled in `ℚ`.
* The key-value storage (`storage.getItem` / `setItem` / `removeItem`) is
  modelled as association lists inside an explicit `Store` record, one field
  per key family used by the code.  A JavaScript `Map` is likewise an
  association list whose `set` replaces in place or appends (insertion order
  preserved), matching `Map.prototype.set`.
* Each operation takes the value of `Date.now()` as an explicit `now`
  parameter (a single call runs to completion at one instant).
* Local calendar time (`Date.prototype.getHours` / `getDay`) is modelled by a
  fixed timezone offset `tz` in milliseconds added to the UTC timestamp; the
  epoch (day 0) is a Thursday, hence the `+ 4` in the day-of-week formula.
-/

namespace DiscordBot

/-- Replace-or-append update of an association list, mirroring both
`storage.setItem` (keys are unique) and `Map.prototype.set`. -/
def kvSet {κ α : Type} [BEq κ] (m : List (κ × α)) (k : κ) (v : α) : List (κ × α) :=
  if m.any (fun p => p.1 == k) then
    m.map (fun p => if p.1 == k then (k, v) else p)
  else m ++ [(k, v)]

/-- Lookup in an association list, mirroring `storage.getItem` / `Map.prototype.get`. -/
def kvGet? {κ α : Type} [BEq κ] (m : List (κ × α)) (k : κ) : Option α :=
  (m.find? (fun p => p.1 == k)).map (fun p => p.2)

/-- Key removal, mirroring `storage.removeItem` / `Map.prototype.delete`. -/
def kvRemove {κ α : Type} [BEq κ] (m : List (κ × α)) (k : κ) : List (κ × α) :=
  m.filter (fun p => !(p.1 == k))

/-- Session type of a completed or live session (session-manager.ts). -/
inductive SessionType where
  | solo
  | group
deriving DecidableEq, Repr

/-- A user's live session for one activity (interface `UserSession`). -/
structure UserSession where
  userId : String
  username : String
  avatarUrl : String
  activityName : String
  activityType : Int
  startTimestamp : Int
deriving DecidableEq, Repr

/-- All users currently engaged in one (name, type) activity
(interface `GroupSession`); `users` is a `Map<string, UserSession>` keyed by
user id, modelled as an association list in insertion order. -/
structure GroupSession where
  activityName : String
  activityType : Int
  users : List (String × UserSession)
  createdAt : Int
deriving DecidableEq, Repr

/-- An immutable record appended when a session ends (interface `ActivityHistory`). -/
structure ActivityHistory where
  userId : String
  username : String
  activityName : String
  activityType : Int
  startTimestamp : Int
  endTimestamp : Int
  duration : Int
  sessionType : SessionType
deriving DecidableEq, Repr

/-- The key-value store contents, one field per key family:
`user-sessions:{userId}`, `all-active-sessions`,
`sessions:{activityType}:{activityName}` and `activity-history:all`. -/
structure Store where
  userSessions : List (String × List UserSession)
  allActive : List UserSession
  groupSessions : List ((String × Int) × GroupSession)
  history : List ActivityHistory
deriving DecidableEq, Repr

/-- The empty store (fresh storage directory). -/
def initStore : Store := { userSessions := [], allActive := [], groupSessions := [], history := [] }

/-- `getGroupSession` from session-manager.ts. -/
def getGroupSession (st : Store) (activityName : String) (activityType : Int) :
    Option GroupSession :=
  kvGet? st.groupSessions (activityName, activityType)

/-- `saveGroupSession` from session-manager.ts. -/
def saveGroupSession (st : Store) (session : GroupSession) : Store :=
  { st with groupSessions :=
              kvSet st.groupSessions (session.activityName, session.activityType) session }

/-- `getUserActiveSessions` from session-manager.ts (absent key yields `[]`). -/
def getUserActiveSessions (st : Store) (userId : String) : List UserSession :=
  (kvGet? st.userSessions userId).getD []

/-- `saveUserSessions` from session-manager.ts. -/
def saveUserSessions (st : Store) (userId : String) (sessions : List UserSession) : Store :=
  { st with userSessions := kvSet st.userSessions userId sessions }

/-- `getAllActiveSessions` from session-manager.ts. -/
def getAllActiveSessions (st : Store) : List UserSession :=
  st.allActive

/-- `saveAllActiveSessions` from session-manager.ts. -/
def saveAllActiveSessions (st : Store) (sessions : List UserSession) : Store :=
  { st with allActive := sessions }

/-- Result of `startUserActivity`. -/
structure StartResult where
  sessionType : SessionType
  wasAlreadyGroup : Bool
deriving DecidableEq, Repr

/-- `startUserActivity` from session-manager.ts: appends the new session to the
user's list and the global list, inserts the user into the (possibly fresh)
group session, and classifies the session.  The external "joined" notification
does not touch the store and is not modelled. -/
def startUserActivity (now : Int) (userId username avatarUrl activityName : String)
    (activityType : Int) (st : Store) : Store × StartResult :=
  let userSession : UserSession :=
    { userId, username, avatarUrl, activityName, activityType, startTimestamp := now }
  let userSessions := getUserActiveSessions st userId ++ [userSession]
  let st1 := saveUserSessions st userId userSessions
  let st2 := saveAllActiveSessions st1 (getAllActiveSessions st1 ++ [userSession])
  let groupSession? := getGroupSession st2 activityName activityType
  let wasAlreadyGroup : Bool :=
    match groupSession? with
    | some g => decide (0 < g.users.length)
    | none => false
  let groupSession : GroupSession :=
    match groupSession? with
    | some g => g
    | none => { activityName, activityType, users := [], createdAt := now }
  let groupSession := { groupSession with users := kvSet groupSession.users userId userSession }
  let st3 := saveGroupSession st2 groupSession
  let sessionType : SessionType := if 1 < groupSession.users.length then .group else .solo
  (st3, { sessionType, wasAlreadyGroup })

/-- Result of a successful `endUserActivity`. -/
structure EndResult where
  sessionType : SessionType
  duration : Int
  remainingUsers : List String
  userSession : Option UserSession
deriving DecidableEq, Repr

/-- `endUserActivity` from session-manager.ts: locates the matching active
session (null result when absent), appends a history record, removes the
session from the per-user and global lists, and removes the user from the
group session, deleting it when no users remain.  The external "left"
notification does not touch the store and is not modelled. -/
def endUserActivity (now : Int) (userId activityName : String) (activityType : Int)
    (st : Store) : Store × Option EndResult :=
  let userSessions := getUserActiveSessions st userId
  match userSessions.findIdx?
      (fun s => s.activityName == activityName && s.activityType == activityType) with
  | none => (st, none)
  | some sessionIndex =>
    match userSessions[sessionIndex]? with
    | none => (st, none)
    | some userSession =>
      let duration := now - userSession.startTimestamp
      let endTimestamp := now
      let groupSession? := getGroupSession st activityName activityType
      let remainingUsers : List String :=
        match groupSession? with
        | some g => (g.users.map Prod.fst).filter (fun id => !(id == userId))
        | none => []
      let wasGroupSession : Bool :=
        match groupSession? with
        | some g => decide (1 < g.users.length)
        | none => false
      let sessionType : SessionType := if wasGroupSession then .group else .solo
      let record : ActivityHistory :=
        { userId := userSession.userId, username := userSession.username
          activityName := userSession.activityName, activityType := userSession.activityType
          startTimestamp := userSession.startTimestamp, endTimestamp, duration, sessionType }
      let st1 := { st with history := st.history ++ [record] }
      let st2 := saveUserSessions st1 userId (userSessions.eraseIdx sessionIndex)
      let st3 :=
        match (getAllActiveSessions st2).findIdx?
            (fun s => s.userId == userId && s.activityName == activityName &&
              s.activityType == activityType) with
        | some globalIndex =>
          saveAllActiveSessions st2 ((getAllActiveSessions st2).eraseIdx globalIndex)
        | none => st2
      let st4 :=
        match groupSession? with
        | some g =>
          let g := { g with users := kvRemove g.users userId }
          if remainingUsers.length = 0 then
            { st3 with groupSessions := kvRemove st3.groupSessions (activityName, activityType) }
          else saveGroupSession st3 g
        | none => st3
      (st4, some { sessionType, duration, remainingUsers, userSession := some userSession })

/-- `getGroupSessionUsers` from session-manager.ts. -/
def getGroupSessionUsers (st : Store) (activityName : String) (activityType : Int) :
    List UserSession :=
  match getGroupSession st activityName activityType with
  | none => []
  | some session => session.users.map Prod.snd

/-- Lookback periods accepted by the query functions. -/
inductive Period where
  | day
  | week
  | month
deriving DecidableEq, Repr

/-- Window start used by `getActivityHistory` / `getAllActivities`. -/
def periodStartTime (period : Period) (now : Int) : Int :=
  match period with
  | .day => now - 24 * 60 * 60 * 1000
  | .week => now - 7 * 24 * 60 * 60 * 1000
  | .month => now - 30 * 24 * 60 * 60 * 1000

/-- Stable insertion step for a descending sort by an integer key, matching the
behaviour of `Array.prototype.sort` with comparator `(a, b) => key(b) - key(a)`:
an element moves before the first strictly smaller key and stays after equal keys. -/
def insertByDesc {α : Type} (key : α → Int) (a : α) : List α → List α
  | [] => [a]
  | b :: t => if key b ≤ key a then a :: b :: t else b :: insertByDesc key a t

/-- Stable descending sort by an integer key. -/
def sortByDesc {α : Type} (key : α → Int) (l : List α) : List α :=
  l.foldr (insertByDesc key) []

/-- `getActivityHistory` from session-manager.ts: in-window history entries,
sorted by `endTimestamp` descending. -/
def getActivityHistory (st : Store) (period : Period) (now : Int) : List ActivityHistory :=
  let startTime := periodStartTime period now
  sortByDesc (fun h => h.endTimestamp)
    (st.history.filter (fun h => startTime ≤ h.endTimestamp))

/-- `getAllActivities` from session-manager.ts: in-window active sessions paired
with the in-window history. -/
def getAllActivities (st : Store) (period : Period) (now : Int) :
    List UserSession × List ActivityHistory :=
  let history := getActivityHistory st period now
  let startTime := periodStartTime period now
  let active := (getAllActiveSessions st).filter (fun s => startTime ≤ s.startTimestamp)
  (active, history)

/-- Query-time aggregate for one (name, type) activity
(interface `ActivityGroup` in activity-query.ts). -/
structure ActivityGroup where
  activityName : String
  activityType : Int
  totalDuration : Int
  totalSessions : Nat
  activeUsers : List String
  historySessions : List ActivityHistory
  activeSessions : List UserSession
deriving DecidableEq, Repr

/-- The fresh group created when a key is first seen in `getActivitiesByPeriod`. -/
def emptyActivityGroup (activityName : String) (activityType : Int) : ActivityGroup :=
  { activityName, activityType, totalDuration := 0, totalSessions := 0,
    activeUsers := [], historySessions := [], activeSessions := [] }

/-- One iteration of the active-session loop of `getActivitiesByPeriod`:
get-or-create the group for the session's key, then push the session and
(if new) its username. -/
def addActiveSession (m : List ((Int × String) × ActivityGroup)) (session : UserSession) :
    List ((Int × String) × ActivityGroup) :=
  let key := (session.activityType, session.activityName)
  let group := (kvGet? m key).getD (emptyActivityGroup session.activityName session.activityType)
  let group := { group with
    activeSessions := group.activeSessions ++ [session]
    activeUsers :=
      if group.activeUsers.contains session.username then group.activeUsers
      else group.activeUsers ++ [session.username] }
  kvSet m key group

/-- One iteration of the history loop of `getActivitiesByPeriod`. -/
def addHistorySession (m : List ((Int × String) × ActivityGroup)) (h : ActivityHistory) :
    List ((Int × String) × ActivityGroup) :=
  let key := (h.activityType, h.activityName)
  let group := (kvGet? m key).getD (emptyActivityGroup h.activityName h.activityType)
  let group := { group with
    historySessions := group.historySessions ++ [h]
    totalDuration := group.totalDuration + h.duration
    totalSessions := group.totalSessions + 1 }
  kvSet m key group

/-- The final per-group pass of `getActivitiesByPeriod`: add live elapsed time
for each active session, then bump `totalSessions` by the history and active
counts. -/
def finalizeGroup (now : Int) (g : ActivityGroup) : ActivityGroup :=
  { g with
    totalDuration := g.totalDuration + (g.activeSessions.map (fun s => now - s.startTimestamp)).sum
    totalSessions := g.totalSessions + g.historySessions.length + g.activeSessions.length }

/-- `getActivitiesByPeriod` from activity-query.ts. -/
def getActivitiesByPeriod (period : Period) (now : Int) (st : Store) : List ActivityGroup :=
  let activeHistory := getAllActivities st period now
  let m : List ((Int × String) × ActivityGroup) := []
  let m := activeHistory.1.foldl addActiveSession m
  let m := activeHistory.2.foldl addHistorySession m
  let groups := (m.map Prod.snd).map (finalizeGroup now)
  sortByDesc (fun g => g.totalDuration) groups

/-- One call into the session manager, tagged with the `Date.now()` value it
observes. -/
inductive Op where
  | startOp (now : Int) (userId username avatarUrl activityName : String) (activityType : Int)
  | endOp (now : Int) (userId activityName : String) (activityType : Int)

/-- Apply one session-manager call to the store, discarding the returned value. -/
def applyOp (st : Store) (op : Op) : Store :=
  match op with
  | .startOp now userId username avatarUrl activityName activityType =>
    (startUserActivity now userId username avatarUrl activityName activityType st).1
  | .endOp now userId activityName activityType =>
    (endUserActivity now userId activityName activityType st).1

/-- The store reached from empty storage by a sequence of session-manager calls. -/
def runOps (ops : List Op) : Store :=
  ops.foldl applyOp initStore

/-- Stores reachable from empty storage when every `startUserActivity` call is
guarded: the user has no active session with the same (activityName,
activityType) at the moment of the call (the presence handler only starts an
activity absent from the user's previous presence). `endUserActivity` calls are
unrestricted. -/
inductive GuardedReach : Store → Prop where
  | init : GuardedReach initStore
  | start (st : Store) (now : Int) (userId username avatarUrl activityName : String)
      (activityType : Int) :
      GuardedReach st →
      (∀ s ∈ getUserActiveSessions st userId,
        ¬(s.activityName = activityName ∧ s.activityType = activityType)) →
      GuardedReach (startUserActivity now userId username avatarUrl activityName activityType st).1
  | stop (st : Store) (now : Int) (userId activityName : String) (activityType : Int) :
      GuardedReach st →
      GuardedReach (endUserActivity now userId activityName activityType st).1

/-- Model of `new Date(timestamp).getHours()` for a timezone at fixed offset
`tz` milliseconds from UTC: the hour (0-23) of the local calendar time. -/
def getHourFromTimestamp (tz timestamp : Int) : Int :=
  ((timestamp + tz).ediv 3600000).emod 24

/-- Model of `new Date(timestamp).getDay()` for a timezone at fixed offset `tz`
milliseconds from UTC: the day of week (0 = Sunday); day 0 of the epoch was a
Thursday, hence the offset 4. -/
def getDayOfWeekFromTimestamp (tz timestamp : Int) : Int :=
  (((timestamp + tz).ediv 86400000) + 4).emod 7

/-- Hour bucket index as a natural number. -/
def hourIdx (tz timestamp : Int) : Nat :=
  (getHourFromTimestamp tz timestamp).toNat

/-- Day-of-week bucket index as a natural number. -/
def dayIdx (tz timestamp : Int) : Nat :=
  (getDayOfWeekFromTimestamp tz timestamp).toNat

/-- The statement `counts[i] += v` on a histogram array (indices are always in
range in the source, since they come from `getHours` / `getDay`). -/
def bucketAdd (l : List Int) (i : Nat) (v : Int) : List Int :=
  l.set i (l.getD i 0 + v)

/-- Model of `Math.max(...l)` for the nonempty histogram arrays of the source. -/
def jsMaxList (l : List Int) : Int :=
  match l with
  | [] => 0
  | h :: t => t.foldl max h

/-- The peak-selection idiom `l.indexOf(Math.max(...l))`: the first (lowest)
index attaining the maximum. -/
def peakIndex (l : List Int) : Nat :=
  l.indexOf (jsMaxList l)

/-- The composite key string used throughout the statistics code. -/
def activityKey (activityType : Int) (activityName : String) : String :=
  toString activityType ++ ":" ++ activityName

/-- JavaScript `a || b` on strings (the empty string is falsy). -/
def jsOrString (a b : String) : String :=
  if a = "" then b else a

/-- Model of `Number.parseInt(s, 10)` on the decimal keys produced by
`activityKey` (non-numeric input is not exercised by the source's keys). -/
def jsParseInt (s : String) : Int :=
  (s.toInt?).getD 0

/-- One `Set.prototype.add` step on an insertion-ordered set. -/
def addToSet {α : Type} [BEq α] (l : List α) (a : α) : List α :=
  if l.contains a then l else l ++ [a]

/-- One entry of `favoriteActivities` in statistics.ts. -/
structure FavoriteActivity where
  name : String
  duration : Int
  sessions : Nat
deriving DecidableEq, Repr

/-- Interface `UserStatistics` from statistics.ts. -/
structure UserStatistics where
  userId : String
  username : String
  totalDuration : Int
  totalSessions : Nat
  averageSessionDuration : ℚ
  favoriteActivities : List FavoriteActivity
  soloSessions : Nat
  groupSessions : Nat
  peakHour : Nat
  peakDay : Nat
deriving DecidableEq, Repr

/-- Interface `ActivityStatistics` from statistics.ts. -/
structure ActivityStatistics where
  activityName : String
  activityType : Int
  totalDuration : Int
  totalSessions : Nat
  uniqueUsers : Nat
  averageSessionDuration : ℚ
  soloSessions : Nat
  groupSessions : Nat
  peakHour : Nat
deriving DecidableEq, Repr

/-- The temporal histograms of `RetrospectiveData` (24 hour buckets, 7
day-of-week buckets). -/
structure TemporalDistribution where
  byHour : List Int
  byDayOfWeek : List Int
deriving DecidableEq, Repr

/-- The `general` block of `RetrospectiveData`. -/
structure GeneralStats where
  totalHours : ℚ
  totalSessions : Nat
  mostPopularActivity : String
  mostActiveUser : String
  peakHour : Nat
  peakDay : Nat
deriving DecidableEq, Repr

/-- The period argument of `generateRetrospective`. -/
inductive RetroPeriod where
  | day
  | week
  | month
  | all
deriving DecidableEq, Repr

/-- Interface `RetrospectiveData` from statistics.ts. -/
structure RetrospectiveData where
  period : RetroPeriod
  generatedAt : Int
  general : GeneralStats
  users : List UserStatistics
  activities : List ActivityStatistics
  temporal : TemporalDistribution
deriving DecidableEq, Repr

/-- Accumulator of the two per-session loops in `calculateUserStatistics`:
running totals, histograms and the per-activity duration/count map. -/
structure StatsAcc where
  totalDuration : Int
  soloSessions : Nat
  groupSessions : Nat
  hourCounts : List Int
  dayCounts : List Int
  activityMap : List (String × (Int × Nat))
deriving DecidableEq, Repr

/-- The initial accumulator (`new Array(24).fill(0)` etc.). -/
def initStatsAcc : StatsAcc :=
  { totalDuration := 0, soloSessions := 0, groupSessions := 0,
    hourCounts := List.replicate 24 0, dayCounts := List.replicate 7 0, activityMap := [] }

/-- The history-loop body of `calculateUserStatistics`. -/
def userHistoryStep (tz : Int) (a : StatsAcc) (s : ActivityHistory) : StatsAcc :=
  { totalDuration := a.totalDuration + s.duration
    soloSessions := if s.sessionType = .solo then a.soloSessions + 1 else a.soloSessions
    groupSessions := if s.sessionType = .solo then a.groupSessions else a.groupSessions + 1
    hourCounts := bucketAdd a.hourCounts (hourIdx tz s.startTimestamp) s.duration
    dayCounts := bucketAdd a.dayCounts (dayIdx tz s.startTimestamp) s.duration
    activityMap :=
      let key := activityKey s.activityType s.activityName
      let existing := (kvGet? a.activityMap key).getD (0, 0)
      kvSet a.activityMap key (existing.1 + s.duration, existing.2 + 1) }

/-- The active-session-loop body of `calculateUserStatistics` (live elapsed
time; no solo/group classification in the source). -/
def userActiveStep (tz now : Int) (a : StatsAcc) (s : UserSession) : StatsAcc :=
  let duration := now - s.startTimestamp
  { a with
    totalDuration := a.totalDuration + duration
    hourCounts := bucketAdd a.hourCounts (hourIdx tz s.startTimestamp) duration
    dayCounts := bucketAdd a.dayCounts (dayIdx tz s.startTimestamp) duration
    activityMap :=
      let key := activityKey s.activityType s.activityName
      let existing := (kvGet? a.activityMap key).getD (0, 0)
      kvSet a.activityMap key (existing.1 + duration, existing.2 + 1) }

/-- Recover the activity name from a composite key:
`parts.slice(1).join(":") || parts[0] || "Unknown"`. -/
def nameFromKey (key : String) : String :=
  let parts := key.splitOn ":"
  jsOrString (String.intercalate ":" (parts.drop 1)) (jsOrString (parts.headD "") "Unknown")

/-- `calculateUserStatistics` from statistics.ts. -/
def calculateUserStatistics (tz now : Int) (userId : String)
    (history : List ActivityHistory) (activeSessions : List UserSession) : UserStatistics :=
  let userHistory := history.filter (fun h => h.userId == userId)
  let userActive := activeSessions.filter (fun s => s.userId == userId)
  let acc := userHistory.foldl (userHistoryStep tz) initStatsAcc
  let acc := userActive.foldl (userActiveStep tz now) acc
  let totalSessions := userHistory.length + userActive.length
  let averageSessionDuration : ℚ :=
    if 0 < totalSessions then (acc.totalDuration : ℚ) / (totalSessions : ℚ) else 0
  let favoriteActivities :=
    ((sortByDesc (fun a => a.duration)
        ((acc.activityMap.map (fun p =>
            ({ name := nameFromKey p.1, duration := p.2.1, sessions := p.2.2 }
              : FavoriteActivity))).filter
          (fun a => !(a.name == "Unknown")))).take 5)
  let username :=
    match userHistory.head? with
    | some h => h.username
    | none =>
      match userActive.head? with
      | some s => s.username
      | none => "Unknown"
  { userId, username, totalDuration := acc.totalDuration, totalSessions,
    averageSessionDuration, favoriteActivities,
    soloSessions := acc.soloSessions, groupSessions := acc.groupSessions,
    peakHour := peakIndex acc.hourCounts, peakDay := peakIndex acc.dayCounts }

/-- Accumulator of the loops in `calculateActivityStatistics`. -/
structure ActAcc where
  totalDuration : Int
  soloSessions : Nat
  groupSessions : Nat
  hourCounts : List Int
  uniqueUserIds : List String
deriving DecidableEq, Repr

/-- `calculateActivityStatistics` from statistics.ts. -/
def calculateActivityStatistics (tz now : Int) (activityName : String) (activityType : Int)
    (history : List ActivityHistory) (activeSessions : List UserSession) : ActivityStatistics :=
  let activityHistory := history.filter
    (fun h => h.activityName == activityName && h.activityType == activityType)
  let activityActive := activeSessions.filter
    (fun s => s.activityName == activityName && s.activityType == activityType)
  let acc0 : ActAcc :=
    { totalDuration := 0, soloSessions := 0, groupSessions := 0,
      hourCounts := List.replicate 24 0, uniqueUserIds := [] }
  let acc := activityHistory.foldl (fun a s =>
    { totalDuration := a.totalDuration + s.duration
      uniqueUserIds := addToSet a.uniqueUserIds s.userId
      soloSessions := if s.sessionType = .solo then a.soloSessions + 1 else a.soloSessions
      groupSessions := if s.sessionType = .solo then a.groupSessions else a.groupSessions + 1
      hourCounts := bucketAdd a.hourCounts (hourIdx tz s.startTimestamp) s.duration }) acc0
  let acc := activityActive.foldl (fun a s =>
    let duration := now - s.startTimestamp
    { a with
      totalDuration := a.totalDuration + duration
      uniqueUserIds := addToSet a.uniqueUserIds s.userId
      hourCounts := bucketAdd a.hourCounts (hourIdx tz s.startTimestamp) duration }) acc
  let totalSessions := activityHistory.length + activityActive.length
  let averageSessionDuration : ℚ :=
    if 0 < totalSessions then (acc.totalDuration : ℚ) / (totalSessions : ℚ) else 0
  { activityName, activityType, totalDuration := acc.totalDuration, totalSessions,
    uniqueUsers := acc.uniqueUserIds.length, averageSessionDuration,
    soloSessions := acc.soloSessions, groupSessions := acc.groupSessions,
    peakHour := peakIndex acc.hourCounts }

/-- `calculateTemporalDistribution` from statistics.ts. -/
def calculateTemporalDistribution (tz now : Int) (history : List ActivityHistory)
    (activeSessions : List UserSession) : TemporalDistribution :=
  let counts := history.foldl (fun (c : List Int × List Int) s =>
      (bucketAdd c.1 (hourIdx tz s.startTimestamp) s.duration,
       bucketAdd c.2 (dayIdx tz s.startTimestamp) s.duration))
    (List.replicate 24 0, List.replicate 7 0)
  let counts := activeSessions.foldl (fun (c : List Int × List Int) s =>
      let duration := now - s.startTimestamp
      (bucketAdd c.1 (hourIdx tz s.startTimestamp) duration,
       bucketAdd c.2 (dayIdx tz s.startTimestamp) duration))
    counts
  { byHour := counts.1, byDayOfWeek := counts.2 }

/-- The zero-valued `RetrospectiveData` returned on empty input. -/
def emptyRetrospective (period : RetroPeriod) (now : Int) : RetrospectiveData :=
  { period, generatedAt := now,
    general := { totalHours := 0, totalSessions := 0, mostPopularActivity := "N/A",
                 mostActiveUser := "N/A", peakHour := 0, peakDay := 0 },
    users := [], activities := [],
    temporal := { byHour := List.replicate 24 0, byDayOfWeek := List.replicate 7 0 } }

/-- `generateRetrospective` from statistics.ts. -/
def generateRetrospective (tz now : Int) (period : RetroPeriod) (st : Store) :
    RetrospectiveData :=
  let historyActive : List ActivityHistory × List UserSession :=
    match period with
    | .all => (sortByDesc (fun h => h.endTimestamp) st.history, getAllActiveSessions st)
    | .day => ((getAllActivities st .day now).2, (getAllActivities st .day now).1)
    | .week => ((getAllActivities st .week now).2, (getAllActivities st .week now).1)
    | .month => ((getAllActivities st .month now).2, (getAllActivities st .month now).1)
  let history := historyActive.1
  let activeSessions := historyActive.2
  if history.length = 0 ∧ activeSessions.length = 0 then
    emptyRetrospective period now
  else
    let userIds :=
      (history.map (fun h => h.userId) ++ activeSessions.map (fun s => s.userId)).foldl
        addToSet []
    let activityKeys :=
      (history.map (fun h => activityKey h.activityType h.activityName) ++
        activeSessions.map (fun s => activityKey s.activityType s.activityName)).foldl
        addToSet []
    let users := userIds.map (fun uid => calculateUserStatistics tz now uid history activeSessions)
    let activities := activityKeys.filterMap (fun key =>
      let parts := key.splitOn ":"
      let typeStr := parts.headD ""
      let name := nameFromKey key
      let type := jsParseInt typeStr
      if name == "" || name == "Unknown" then none
      else some (calculateActivityStatistics tz now name type history activeSessions))
    let temporal := calculateTemporalDistribution tz now history activeSessions
    let totalDuration := (users.map (fun u => u.totalDuration)).sum
    let totalSessions := history.length + activeSessions.length
    let sortedActivities := sortByDesc (fun a => a.totalDuration) activities
    let mostPopularActivity :=
      match sortedActivities.head? with
      | some a => a.activityName
      | none => "N/A"
    let sortedUsers := sortByDesc (fun u => u.totalDuration) users
    let mostActiveUser :=
      match sortedUsers.head? with
      | some u => u.username
      | none => "N/A"
    { period, generatedAt := now,
      general := { totalHours := (totalDuration : ℚ) / (1000 * 60 * 60),
                   totalSessions, mostPopularActivity, mostActiveUser,
                   peakHour := peakIndex temporal.byHour,
                   peakDay := peakIndex temporal.byDayOfWeek },
      users := sortByDesc (fun u => u.totalDuration) users,
      activities := sortByDesc (fun a => a.totalDuration) activities,
      temporal }

/-- Whether `escapeCSV` quotes the field: it contains a comma, a double quote
or a newline.  JavaScript strings are modelled as `List Char` in the CSV
export so that escaping is structurally recursive. -/
def needsQuoting (s : List Char) : Bool :=
  s.any (fun c => c == ',' || c == '"' || c == '\n')

/-- The `str.replace(/"/g, '""')` step of `escapeCSV`. -/
def doubleQuotes : List Char → List Char
  | [] => []
  | c :: t => if c = '"' then '"' :: '"' :: doubleQuotes t else c :: doubleQuotes t

/-- `escapeCSV` from export.ts: quote the field and double internal quotes when
it contains a comma, quote or newline; otherwise return it unchanged. -/
def escapeCSV (s : List Char) : List Char :=
  if needsQuoting s then '"' :: (doubleQuotes s ++ ['"']) else s

/-- Undo quote doubling inside a quoted CSV field (standard CSV rules). -/
def collapseQuotes : List Char → List Char
  | '"' :: '"' :: t => '"' :: collapseQuotes t
  | c :: t => c :: collapseQuotes t
  | [] => []

/-- Parse one emitted CSV field back with standard CSV rules: strip the outer
quotes of a quoted field and halve the doubled quotes; return an unquoted
field unchanged. -/
def csvParseField (s : List Char) : List Char :=
  match s with
  | '"' :: rest =>
    if rest.getLast? = some '"' ∧ rest ≠ [] then collapseQuotes rest.dropLast else s
  | _ => s

/-- `formatDuration` from export.ts, producing for example `2h 5m 1s`; the
argument is in `ℚ` because the source also applies it to the floating-point
`averageSessionDuration` (integer inputs behave identically). `Math.floor` is
`⌊ ⌋` and the remainder operator on the source's nonnegative inputs is the
floor-based remainder. -/
def formatDuration (ms : ℚ) : String :=
  let hours : Int := ⌊ms / 3600000⌋
  let restH : ℚ := ms - 3600000 * (⌊ms / 3600000⌋ : ℚ)
  let minutes : Int := ⌊restH / 60000⌋
  let restM : ℚ := ms - 60000 * (⌊ms / 60000⌋ : ℚ)
  let seconds : Int := ⌊restM / 1000⌋
  toString hours ++ "h " ++ toString minutes ++ "m " ++ toString seconds ++ "s"

/-- Join CSV fields of one row with commas (`row.join(",")`). -/
def joinComma (fields : List (List Char)) : List Char :=
  List.intercalate [','] fields

/-- Join CSV lines with newlines (`lines.join("\n")`). -/
def joinLines (lines : List (List Char)) : List Char :=
  List.intercalate ['\n'] lines

/-- The header row of the users CSV table. -/
def userCSVHeaders : List (List Char) :=
  ["User ID", "Username", "Total Duration (ms)", "Total Duration (formatted)",
   "Total Sessions", "Average Session Duration (ms)", "Average Session Duration (formatted)",
   "Solo Sessions", "Group Sessions", "Peak Hour", "Peak Day",
   "Top Activity 1", "Top Activity 1 Duration", "Top Activity 1 Sessions",
   "Top Activity 2", "Top Activity 2 Duration", "Top Activity 2 Sessions",
   "Top Activity 3", "Top Activity 3 Duration", "Top Activity 3 Sessions"].map String.toList

/-- One data row of the users CSV table: each field is escaped once and the
row is joined immediately (`[...].join(",")` in `userStatisticsToCSV`). -/
def userRow (u : UserStatistics) : List Char :=
  let topActivities := u.favoriteActivities.take 3
  joinComma
    [escapeCSV u.userId.toList,
     escapeCSV u.username.toList,
     escapeCSV (toString u.totalDuration).toList,
     escapeCSV (formatDuration (u.totalDuration : ℚ)).toList,
     escapeCSV (toString u.totalSessions).toList,
     escapeCSV (toString u.averageSessionDuration).toList,
     escapeCSV (formatDuration u.averageSessionDuration).toList,
     escapeCSV (toString u.soloSessions).toList,
     escapeCSV (toString u.groupSessions).toList,
     escapeCSV (toString u.peakHour).toList,
     escapeCSV (toString u.peakDay).toList,
     escapeCSV (((topActivities.get? 0).map (fun a => a.name)).getD "").toList,
     escapeCSV (toString (((topActivities.get? 0).map (fun a => a.duration)).getD 0)).toList,
     escapeCSV (toString (((topActivities.get? 0).map (fun a => a.sessions)).getD 0)).toList,
     escapeCSV (((topActivities.get? 1).map (fun a => a.name)).getD "").toList,
     escapeCSV (toString (((topActivities.get? 1).map (fun a => a.duration)).getD 0)).toList,
     escapeCSV (toString (((topActivities.get? 1).map (fun a => a.sessions)).getD 0)).toList,
     escapeCSV (((topActivities.get? 2).map (fun a => a.name)).getD "").toList,
     escapeCSV (toString (((topActivities.get? 2).map (fun a => a.duration)).getD 0)).toList,
     escapeCSV (toString (((topActivities.get? 2).map (fun a => a.sessions)).getD 0)).toList]

/-- `userStatisticsToCSV` from export.ts. -/
def userStatisticsToCSV (users : List UserStatistics) : List Char :=
  joinLines (joinComma userCSVHeaders :: users.map userRow)

/-- The header row of the activities CSV table. -/
def activityCSVHeaders : List (List Char) :=
  ["Activity Name", "Activity Type", "Total Duration (ms)", "Total Duration (formatted)",
   "Total Sessions", "Unique Users", "Average Session Duration (ms)",
   "Average Session Duration (formatted)", "Solo Sessions", "Group Sessions",
   "Peak Hour"].map String.toList

/-- One data row of the activities CSV table as the source first builds it:
each field already passed through `escapeCSV`, and the row is kept as an array
(not yet joined). -/
def activityRow (a : ActivityStatistics) : List (List Char) :=
  [escapeCSV a.activityName.toList,
   escapeCSV (toString a.activityType).toList,
   escapeCSV (toString a.totalDuration).toList,
   escapeCSV (formatDuration (a.totalDuration : ℚ)).toList,
   escapeCSV (toString a.totalSessions).toList,
   escapeCSV (toString a.uniqueUsers).toList,
   escapeCSV (toString a.averageSessionDuration).toList,
   escapeCSV (formatDuration a.averageSessionDuration).toList,
   escapeCSV (toString a.soloSessions).toList,
   escapeCSV (toString a.groupSessions).toList,
   escapeCSV (toString a.peakHour).toList]

/-- `activityStatisticsToCSV` from export.ts: note that the final line maps
`escapeCSV` over each already-escaped row before joining
(`rows.map((row) => row.map(escapeCSV).join(","))`). -/
def activityStatisticsToCSV (activities : List ActivityStatistics) : List Char :=
  let rows := activities.map activityRow
  joinLines (joinComma activityCSVHeaders ::
    rows.map (fun row => joinComma (row.map escapeCSV)))

/-- Day names used by the temporal CSV table. -/
def dayNames : List String :=
  ["Domingo", "Segunda", "Terça", "Quarta", "Quinta", "Sexta", "Sábado"]

/-- `temporalToCSV` from export.ts. -/
def temporalToCSV (temporal : TemporalDistribution) : List Char :=
  let hourHeaders : List (List Char) :=
    ["Hour", "Duration (ms)", "Duration (formatted)"].map String.toList
  let hourRows := temporal.byHour.enum.map (fun p =>
    [escapeCSV (toString p.1).toList,
     escapeCSV (toString p.2).toList,
     escapeCSV (formatDuration (p.2 : ℚ)).toList])
  let dayHeaders : List (List Char) :=
    ["Day", "Duration (ms)", "Duration (formatted)"].map String.toList
  let dayRows := temporal.byDayOfWeek.enum.map (fun p =>
    [escapeCSV ((dayNames.getD p.1 ("Dia " ++ toString p.1)).toList),
     escapeCSV (toString p.2).toList,
     escapeCSV (formatDuration (p.2 : ℚ)).toList])
  joinLines
    (("=== Por Hora ===").toList ::
      joinComma hourHeaders ::
      (hourRows.map joinComma ++
        (("").toList ::
          ("=== Por Dia da Semana ===").toList ::
          joinComma dayHeaders ::
          dayRows.map joinComma)))

/-- Well-formedness of a group session's member map: member keys are pairwise
distinct and each stored session belongs to the user it is keyed by. -/
def GroupWF (g : GroupSession) : Prop :=
  (g.users.map Prod.fst).Nodup ∧ ∀ p ∈ g.users, p.2.userId = p.1

/-- Every group session stored in the store is well-formed. -/
def StoreGroupsWF (st : Store) : Prop :=
  ∀ e ∈ st.groupSessions, GroupWF e.2

/-- Every stored per-user active list has pairwise distinct
(activityName, activityType) keys. -/
def UserKeysNodup (st : Store) : Prop :=
  ∀ e ∈ st.userSessions, (e.2.map (fun s => (s.activityName, s.activityType))).Nodup

/-- Consistency of group-session storage keys with the record fields they map
to; this holds in every reachable store because both writers use the record's
own (activityName, activityType) as the key. -/
def GroupKeysConsistent (st : Store) : Prop :=
  ∀ e ∈ st.groupSessions, e.2.activityName = e.1.1 ∧ e.2.activityType = e.1.2

theorem kvGet?_nil {κ α : Type} [BEq κ] (k : κ) : kvGet? ([] : List (κ × α)) k = none := rfl

theorem find?_map_replace {κ α : Type} [BEq κ] [LawfulBEq κ] (k : κ) (v : α) :
    ∀ (m : List (κ × α)), m.any (fun p => p.1 == k) = true →
      (m.map (fun p => if p.1 == k then (k, v) else p)).find? (fun p => p.1 == k) = some (k, v)
  | [], h => by simp at h
  | p :: t, h => by
    by_cases hp : (p.1 == k) = true
    · simp [hp, List.find?_cons]
    · have hp' : (p.1 == k) = false := Bool.eq_false_iff.mpr hp
      have ht : t.any (fun p => p.1 == k) = true := by
        simp only [List.any_cons, Bool.or_eq_true] at h
        exact h.resolve_left hp
      simpa [hp', List.find?_cons] using find?_map_replace k v t ht

theorem find?_append_fresh {κ α : Type} [BEq κ] [LawfulBEq κ] (k : κ) (v : α) :
    ∀ (m : List (κ × α)), m.any (fun p => p.1 == k) = false →
      (m ++ [(k, v)]).find? (fun p => p.1 == k) = some (k, v)
  | [], _ => by simp
  | p :: t, h => by
    simp only [List.any_cons, Bool.or_eq_false_iff] at h
    simp only [List.cons_append, List.find?_cons, h.1]
    exact find?_append_fresh k v t h.2

theorem kvGet?_kvSet_self {κ α : Type} [BEq κ] [LawfulBEq κ] (m : List (κ × α)) (k : κ) (v : α) :
    kvGet? (kvSet m k v) k = some v := by
  unfold kvSet kvGet?
  by_cases h : m.any (fun p => p.1 == k) = true
  · rw [if_pos h, find?_map_replace k v m h]; rfl
  · rw [if_neg h, find?_append_fresh k v m (Bool.eq_false_iff.mpr h)]; rfl

theorem kvGet?_kvRemove_self {κ α : Type} [BEq κ] (m : List (κ × α)) (k : κ) :
    kvGet? (kvRemove m k) k = none := by
  unfold kvRemove kvGet?
  rw [Option.map_eq_none', List.find?_eq_none]
  intro p hp
  have := (List.mem_filter.mp hp).2
  simpa using this

theorem mem_kvSet {κ α : Type} [BEq κ] {m : List (κ × α)} {k : κ} {v : α} {e : κ × α}
    (h : e ∈ kvSet m k v) : e ∈ m ∨ e = (k, v) := by
  unfold kvSet at h
  by_cases hc : m.any (fun p => p.1 == k) = true
  · rw [if_pos hc] at h
    obtain ⟨p, hp, he⟩ := List.mem_map.mp h
    by_cases hk : (p.1 == k) = true
    · right; rw [if_pos hk] at he; exact he.symm
    · left; rw [if_neg hk] at he; exact he ▸ hp
  · rw [if_neg hc] at h
    rcases List.mem_append.mp h with h' | h'
    · exact Or.inl h'
    · exact Or.inr (List.mem_singleton.mp h')

theorem mem_kvRemove {κ α : Type} [BEq κ] {m : List (κ × α)} {k : κ} {e : κ × α}
    (h : e ∈ kvRemove m k) : e ∈ m :=
  (List.mem_filter.mp h).1

theorem mem_of_kvGet? {κ α : Type} [BEq κ] {m : List (κ × α)} {k : κ} {v : α}
    (h : kvGet? m k = some v) : ∃ k', (k', v) ∈ m ∧ (k' == k) = true := by
  unfold kvGet? at h
  rcases hf : m.find? (fun p => p.1 == k) with _ | p
  · rw [hf] at h; simp at h
  · rw [hf] at h
    have hm := List.mem_of_find?_eq_some hf
    have hk := List.find?_some hf
    have hv : p.2 = v := by simpa using h
    exact ⟨p.1, by simpa [← hv] using hm, hk⟩

theorem keys_nodup_kvSet {κ α : Type} [BEq κ] [LawfulBEq κ] {m : List (κ × α)} (k : κ) (v : α)
    (h : (m.map Prod.fst).Nodup) : ((kvSet m k v).map Prod.fst).Nodup := by
  unfold kvSet
  by_cases hc : m.any (fun p => p.1 == k) = true
  · rw [if_pos hc]
    have : (m.map (fun p => if p.1 == k then (k, v) else p)).map Prod.fst = m.map Prod.fst := by
      rw [List.map_map]
      refine List.map_congr_left (fun p _ => ?_)
      by_cases hk : (p.1 == k) = true
      · simp [hk, eq_of_beq hk]
      · simp [hk]
    rw [this]; exact h
  · rw [if_neg hc, List.map_append]
    simp only [List.map_cons, List.map_nil]
    refine List.Nodup.append h (List.nodup_singleton k) ?_
    intro a ha hb
    obtain ⟨p, hp, rfl⟩ := List.mem_map.mp ha
    rw [List.mem_singleton] at hb
    rw [List.any_eq_true] at hc
    exact hc ⟨p, hp, by simp [hb]⟩

theorem groupWF_kvSet_user (g : GroupSession) (hg : GroupWF g) (u : String) (s : UserSession)
    (hs : s.userId = u) : GroupWF { g with users := kvSet g.users u s } := by
  constructor
  · exact keys_nodup_kvSet u s hg.1
  · intro p hp
    rcases mem_kvSet hp with h | h
    · exact hg.2 p h
    · rw [h]; exact hs

theorem groupWF_kvRemove (g : GroupSession) (hg : GroupWF g) (u : String) :
    GroupWF { g with users := kvRemove g.users u } := by
  constructor
  · exact List.Nodup.sublist ((List.filter_sublist _).map Prod.fst) hg.1
  · intro p hp
    exact hg.2 p (mem_kvRemove hp)

theorem storeGroupsWF_lookup {st : Store} (h : StoreGroupsWF st) {n : String} {t : Int}
    {g : GroupSession} (hg : getGroupSession st n t = some g) : GroupWF g := by
  obtain ⟨k', hk, _⟩ := mem_of_kvGet? hg
  exact h (k', g) hk

theorem storeGroupsWF_start (now : Int) (u un av n : String) (t : Int) {st : Store}
    (h : StoreGroupsWF st) :
    StoreGroupsWF (startUserActivity now u un av n t st).1 := by
  intro e he
  simp only [startUserActivity, saveGroupSession, saveUserSessions, saveAllActiveSessions,
    getAllActiveSessions, getUserActiveSessions, getGroupSession] at he
  rcases hG : kvGet? st.groupSessions (n, t) with _ | g
  all_goals rw [hG] at he
  · rcases mem_kvSet he with hm | hm
    · exact h e hm
    · rw [hm]
      refine groupWF_kvSet_user _ ⟨by simp, by simp⟩ u _ rfl
  · rcases mem_kvSet he with hm | hm
    · exact h e hm
    · rw [hm]
      exact groupWF_kvSet_user g (storeGroupsWF_lookup h hG) u _ rfl

theorem storeGroupsWF_end (now : Int) (u n : String) (t : Int) {st : Store}
    (h : StoreGroupsWF st) :
    StoreGroupsWF (endUserActivity now u n t st).1 := by
  rcases hfi : (getUserActiveSessions st u).findIdx?
      (fun s => s.activityName == n && s.activityType == t) with _ | i
  · intro e he
    simp only [endUserActivity, hfi] at he
    exact h e he
  · rcases hget : (getUserActiveSessions st u)[i]? with _ | s
    · intro e he
      simp only [endUserActivity, hfi, hget] at he
      exact h e he
    · intro e he
      simp only [endUserActivity, hfi, hget, saveGroupSession, saveUserSessions,
        saveAllActiveSessions, getAllActiveSessions, getGroupSession] at he
      rcases hG : kvGet? st.groupSessions (n, t) with _ | g
      all_goals simp only [hG] at he
      · split at he
        · exact h e he
        · exact h e he
      · split at he
        · split at he
          · exact h e (mem_kvRemove he)
          · exact h e (mem_kvRemove he)
        · split at he
          · rcases mem_kvSet he with hm | hm
            · exact h e hm
            · rw [hm]; exact groupWF_kvRemove g (storeGroupsWF_lookup h hG) u
          · rcases mem_kvSet he with hm | hm
            · exact h e hm
            · rw [hm]; exact groupWF_kvRemove g (storeGroupsWF_lookup h hG) u

theorem storeGroupsWF_init : StoreGroupsWF initStore := by
  intro e he
  simp [initStore] at he

theorem storeGroupsWF_applyOp (op : Op) {st : Store} (h : StoreGroupsWF st) :
    StoreGroupsWF (applyOp st op) := by
  cases op with
  | startOp now u un av n t => exact storeGroupsWF_start now u un av n t h
  | endOp now u n t => exact storeGroupsWF_end now u n t h

theorem storeGroupsWF_foldl (ops : List Op) :
    ∀ st, StoreGroupsWF st → StoreGroupsWF (ops.foldl applyOp st) := by
  induction ops with
  | nil => exact fun st h => h
  | cons op ops ih => exact fun st h => ih _ (storeGroupsWF_applyOp op h)

theorem storeGroupsWF_runOps (ops : List Op) : StoreGroupsWF (runOps ops) :=
  storeGroupsWF_foldl ops initStore storeGroupsWF_init

/-- C10: in every store reachable by any sequence of session-manager calls, a
group session holds at most one member entry per user id — membership is
inserted by user-id key, so a repeated start overwrites instead of adding —
and therefore `getGroupSessionUsers` never returns two sessions for the same
user. -/
theorem c10_group_member_per_user_unique (ops : List Op) (activityName : String)
    (activityType : Int) :
    ((getGroupSessionUsers (runOps ops) activityName activityType).map
      (fun s => s.userId)).Nodup := by
  have hwf := storeGroupsWF_runOps ops
  unfold getGroupSessionUsers
  rcases hG : getGroupSession (runOps ops) activityName activityType with _ | g
  · simp
  · have hg := storeGroupsWF_lookup hwf hG
    rw [List.map_map]
    have heq : g.users.map ((fun s => s.userId) ∘ Prod.snd) = g.users.map Prod.fst :=
      List.map_congr_left (fun p hp => hg.2 p hp)
    rw [heq]
    exact hg.1

theorem userKeysNodup_lookup {st : Store} (h : UserKeysNodup st) (u : String) :
    ((getUserActiveSessions st u).map (fun s => (s.activityName, s.activityType))).Nodup := by
  unfold getUserActiveSessions
  rcases hf : kvGet? st.userSessions u with _ | l
  · simp
  · obtain ⟨k', hk, _⟩ := mem_of_kvGet? hf
    exact h (k', l) hk

theorem userKeysNodup_start (now : Int) (u un av n : String) (t : Int) {st : Store}
    (h : UserKeysNodup st)
    (hguard : ∀ s ∈ getUserActiveSessions st u, ¬(s.activityName = n ∧ s.activityType = t)) :
    UserKeysNodup (startUserActivity now u un av n t st).1 := by
  intro e he
  simp only [startUserActivity, saveGroupSession, saveUserSessions, saveAllActiveSessions,
    getAllActiveSessions, getGroupSession] at he
  rcases mem_kvSet he with hm | hm
  · exact h e hm
  · rw [hm]
    rw [List.map_append]
    simp only [List.map_cons, List.map_nil]
    refine List.Nodup.append (userKeysNodup_lookup h u) (List.nodup_singleton _) ?_
    intro a ha hb
    obtain ⟨s, hs, rfl⟩ := List.mem_map.mp ha
    rw [List.mem_singleton, Prod.mk.injEq] at hb
    exact hguard s hs hb

theorem userKeysNodup_end (now : Int) (u n : String) (t : Int) {st : Store}
    (h : UserKeysNodup st) : UserKeysNodup (endUserActivity now u n t st).1 := by
  rcases hfi : (getUserActiveSessions st u).findIdx?
      (fun s => s.activityName == n && s.activityType == t) with _ | i
  · intro e he
    simp only [endUserActivity, hfi] at he
    exact h e he
  · rcases hget : (getUserActiveSessions st u)[i]? with _ | s
    · intro e he
      simp only [endUserActivity, hfi, hget] at he
      exact h e he
    · intro e he
      simp only [endUserActivity, hfi, hget, saveGroupSession, saveUserSessions,
        saveAllActiveSessions, getAllActiveSessions, getGroupSession] at he
      rcases hG : kvGet? st.groupSessions (n, t) with _ | g
      all_goals simp only [hG] at he
      all_goals repeat' split at he
      all_goals
        rcases mem_kvSet he with hm | hm
      all_goals
        first
        | exact h e hm
        | (rw [hm]
           exact List.Nodup.sublist ((List.eraseIdx_sublist _ _).map _)
             (userKeysNodup_lookup h u))

theorem userKeysNodup_guarded {st : Store} (h : GuardedReach st) : UserKeysNodup st := by
  induction h with
  | init => intro e he; simp [initStore] at he
  | start st now u un av n t hr hguard ih => exact userKeysNodup_start now u un av n t ih hguard
  | stop st now u n t hr ih => exact userKeysNodup_end now u n t ih

/-- C2 counterexample: two `startUserActivity` calls for the same user and the
same (activityName, activityType) with no intervening end leave the user's
active list with two sessions for that key, so the claimed invariant fails for
unrestricted call sequences. -/
theorem c2_counterexample_duplicate_after_double_start :
    ¬ ((getUserActiveSessions
          (runOps [.startOp 0 "u" "u" "" "A" 0, .startOp 1 "u" "u" "" "A" 0]) "u").map
        (fun s => (s.activityName, s.activityType))).Nodup := by
  decide

/-- C2 (amended): for call sequences in which every `startUserActivity` call is
made only when the user has no active session with the same (activityName,
activityType) — which is how the presence handler invokes it — the user's
active session list never contains two sessions with the same (activityName,
activityType); `startUserActivity` itself appends unconditionally, so the
restriction on starts is necessary. -/
theorem c2_guarded_no_duplicate_sessions {st : Store} (h : GuardedReach st) (userId : String) :
    ((getUserActiveSessions st userId).map
      (fun s => (s.activityName, s.activityType))).Nodup :=
  userKeysNodup_lookup (userKeysNodup_guarded h) userId

/-- Witness for the amended C2 at a concrete guarded run. -/
theorem c2_guarded_no_duplicate_sessions_witness :
    ((getUserActiveSessions (startUserActivity 0 "u" "u" "" "A" 0 initStore).1 "u").map
      (fun s => (s.activityName, s.activityType))).Nodup :=
  c2_guarded_no_duplicate_sessions
    (GuardedReach.start initStore 0 "u" "u" "" "A" 0 GuardedReach.init (by decide)) "u"

/-- C3 counterexample: after user A starts "Chess" (group session has exactly
one member), a second start reports `wasAlreadyGroup = true` even though the
group session did not have strictly more than one member before the call. -/
theorem c3_counterexample_wasAlreadyGroup_with_one_member :
    (startUserActivity 5 "B" "B" "" "Chess" 0
        (startUserActivity 0 "A" "A" "" "Chess" 0 initStore).1).2.wasAlreadyGroup = true ∧
    ((getGroupSession (startUserActivity 0 "A" "A" "" "Chess" 0 initStore).1 "Chess" 0).map
      (fun g => g.users.length)) = some 1 := by
  decide

/-- C3 (amended): `sessionType` is "group" exactly when the group session has
strictly more than one member after the user is inserted, and
`wasAlreadyGroup` is true exactly when a GroupSession with at least one member
existed before the call (the source tests `size > 0`, not `size > 1`). -/
theorem c3_classification (now : Int) (userId username avatarUrl activityName : String)
    (activityType : Int) (st : Store) (hc : GroupKeysConsistent st) :
    ∃ g', getGroupSession
        (startUserActivity now userId username avatarUrl activityName activityType st).1
        activityName activityType = some g' ∧
      ((startUserActivity now userId username avatarUrl activityName activityType st).2.sessionType
          = SessionType.group ↔ 1 < g'.users.length) ∧
      ((startUserActivity now userId username avatarUrl activityName activityType
          st).2.wasAlreadyGroup = true ↔
        ∃ g, getGroupSession st activityName activityType = some g ∧ 0 < g.users.length) := by
  rcases hG : kvGet? st.groupSessions (activityName, activityType) with _ | g
  all_goals simp only [startUserActivity, saveGroupSession, saveUserSessions,
    saveAllActiveSessions, getAllActiveSessions, getGroupSession, hG]
  · refine ⟨_, kvGet?_kvSet_self _ _ _, ?_, ?_⟩
    · simp [kvSet]
    · simp
  · obtain ⟨k', hk, hbeq⟩ := mem_of_kvGet? hG
    have hk' : k' = (activityName, activityType) := eq_of_beq hbeq
    subst hk'
    obtain ⟨hn, ht⟩ := hc _ hk
    refine ⟨_, by rw [hn, ht]; exact kvGet?_kvSet_self _ _ _, ?_, ?_⟩
    · by_cases hlen : 1 <
        (kvSet g.users userId
          { userId, username, avatarUrl, activityName, activityType,
            startTimestamp := now }).length
      · simp [hlen]
      · simp [hlen]
    · simp [decide_eq_true_iff]

theorem c3_classification_witness :
    ∃ g', getGroupSession (startUserActivity 0 "A" "A" "" "Chess" 0 initStore).1 "Chess" 0
        = some g' ∧
      ((startUserActivity 0 "A" "A" "" "Chess" 0 initStore).2.sessionType = SessionType.group ↔
        1 < g'.users.length) ∧
      ((startUserActivity 0 "A" "A" "" "Chess" 0 initStore).2.wasAlreadyGroup = true ↔
        ∃ g, getGroupSession initStore "Chess" 0 = some g ∧ 0 < g.users.length) :=
  c3_classification 0 "A" "A" "" "Chess" 0 initStore (by intro e he; simp [initStore] at he)

theorem findIdx?_eq_none_of_forall {α : Type} (p : α → Bool) :
    ∀ (l : List α) (s : Nat), (∀ x ∈ l, p x = false) → l.findIdx? p s = none
  | [], _, _ => rfl
  | a :: l, s, h => by
    rw [List.findIdx?_cons, h a (List.mem_cons_self a l)]
    simp only [Bool.false_eq_true, if_false]
    exact findIdx?_eq_none_of_forall p l (s + 1) (fun x hx => h x (List.mem_cons_of_mem a hx))

theorem findIdx?_le_lt {α : Type} (p : α → Bool) :
    ∀ (l : List α) (s i : Nat), l.findIdx? p s = some i → s ≤ i ∧ i - s < l.length
  | [], s, i, h => by simp [List.findIdx?] at h
  | a :: l, s, i, h => by
    rw [List.findIdx?_cons] at h
    by_cases hp : p a = true
    · rw [if_pos hp] at h
      obtain rfl := (Option.some.injEq _ _).mp h
      simp
    · rw [if_neg hp] at h
      obtain ⟨h1, h2⟩ := findIdx?_le_lt p l (s + 1) i h
      constructor
      · omega
      · simp only [List.length_cons]
        omega

theorem findIdx?_lt_length {α : Type} {p : α → Bool} {l : List α} {i : Nat}
    (h : l.findIdx? p = some i) : i < l.length := by
  have := findIdx?_le_lt p l 0 i h
  omega

/-- C6: every successful `endUserActivity` appends exactly one history record,
whose recorded duration equals its `endTimestamp` minus its `startTimestamp`
(the call observes one instant, so both are computed from the same `now`). -/
theorem c6_history_duration_exact (now : Int) (userId activityName : String)
    (activityType : Int) (st : Store) (r : EndResult)
    (h : (endUserActivity now userId activityName activityType st).2 = some r) :
    ∃ rec : ActivityHistory,
      (endUserActivity now userId activityName activityType st).1.history
        = st.history ++ [rec] ∧
      rec.duration = rec.endTimestamp - rec.startTimestamp := by
  rcases hfi : (getUserActiveSessions st userId).findIdx?
      (fun s => s.activityName == activityName && s.activityType == activityType) with _ | i
  · simp [endUserActivity, hfi] at h
  · rcases hget : (getUserActiveSessions st userId)[i]? with _ | s
    · simp [endUserActivity, hfi, hget] at h
    · simp only [endUserActivity, hfi, hget, saveGroupSession, saveUserSessions,
        saveAllActiveSessions, getAllActiveSessions, getGroupSession]
      refine ⟨⟨s.userId, s.username, s.activityName, s.activityType, s.startTimestamp, now,
        now - s.startTimestamp,
        if (match kvGet? st.groupSessions (activityName, activityType) with
            | some g => decide (1 < g.users.length)
            | none => false) = true
        then SessionType.group else SessionType.solo⟩, ?_, rfl⟩
      repeat' split
      all_goals rfl

/-- Witness for C6 at a store holding one active session. -/
theorem c6_history_duration_exact_witness :
    ∃ rec : ActivityHistory,
      (endUserActivity 5 "u" "A" 0
          { userSessions := [("u", [⟨"u", "u", "", "A", 0, 0⟩])],
            allActive := [⟨"u", "u", "", "A", 0, 0⟩], groupSessions := [],
            history := [] }).1.history
        = ({ userSessions := [("u", [⟨"u", "u", "", "A", 0, 0⟩])],
             allActive := [⟨"u", "u", "", "A", 0, 0⟩], groupSessions := [],
             history := [] } : Store).history ++ [rec] ∧
      rec.duration = rec.endTimestamp - rec.startTimestamp :=
  c6_history_duration_exact 5 "u" "A" 0 _
    ⟨SessionType.solo, 5, [], some ⟨"u", "u", "", "A", 0, 0⟩⟩ (by decide)

/-- C7: ending with no matching active session returns null and leaves the
store unchanged, and ending a matching session when no group session exists
still succeeds, defaulting to a solo session with no remaining users. -/
theorem c7_end_not_found_and_lenient_fallback (now : Int) (userId activityName : String)
    (activityType : Int) (st : Store) :
    ((∀ s ∈ getUserActiveSessions st userId,
        ¬(s.activityName = activityName ∧ s.activityType = activityType)) →
      endUserActivity now userId activityName activityType st = (st, none)) ∧
    (∀ i, (getUserActiveSessions st userId).findIdx?
          (fun s => s.activityName == activityName && s.activityType == activityType)
            = some i →
      getGroupSession st activityName activityType = none →
      ∃ r, (endUserActivity now userId activityName activityType st).2 = some r ∧
        r.sessionType = SessionType.solo ∧ r.remainingUsers = []) := by
  constructor
  · intro h
    have hfi : (getUserActiveSessions st userId).findIdx?
        (fun s => s.activityName == activityName && s.activityType == activityType) = none := by
      apply findIdx?_eq_none_of_forall
      intro x hx
      have hx' := h x hx
      by_cases h1 : x.activityName = activityName
      · by_cases h2 : x.activityType = activityType
        · exact absurd ⟨h1, h2⟩ hx'
        · simp [h2]
      · simp [h1]
    simp [endUserActivity, hfi]
  · intro i hfi hg
    obtain ⟨s, hget⟩ : ∃ s, (getUserActiveSessions st userId)[i]? = some s :=
      ⟨_, List.getElem?_eq_getElem (findIdx?_lt_length hfi)⟩
    simp only [getGroupSession] at hg
    simp only [endUserActivity, hfi, hget, saveGroupSession, saveUserSessions,
      saveAllActiveSessions, getAllActiveSessions, getGroupSession, hg]
    exact ⟨_, rfl, rfl, rfl⟩

/-- Witness for C7: the first part at a user with no sessions, the second at a
store holding a matching session but no group session. -/
theorem c7_end_not_found_and_lenient_fallback_witness :
    endUserActivity 3 "v" "A" 0
        ({ userSessions := [("u", [⟨"u", "u", "", "A", 0, 0⟩])],
           allActive := [⟨"u", "u", "", "A", 0, 0⟩], groupSessions := [],
           history := [] } : Store)
      = (({ userSessions := [("u", [⟨"u", "u", "", "A", 0, 0⟩])],
            allActive := [⟨"u", "u", "", "A", 0, 0⟩], groupSessions := [],
            history := [] } : Store), none) ∧
    ∃ r, (endUserActivity 5 "u" "A" 0
        ({ userSessions := [("u", [⟨"u", "u", "", "A", 0, 0⟩])],
           allActive := [⟨"u", "u", "", "A", 0, 0⟩], groupSessions := [],
           history := [] } : Store)).2 = some r ∧
      r.sessionType = SessionType.solo ∧ r.remainingUsers = [] :=
  ⟨(c7_end_not_found_and_lenient_fallback 3 "v" "A" 0 _).1 (by decide),
   (c7_end_not_found_and_lenient_fallback 5 "u" "A" 0 _).2 0 (by decide) (by decide)⟩

/-- C8: ending the last remaining member of a group session deletes the group
session, so a subsequent `getGroupSessionUsers` for the same key returns the
empty list. -/
theorem c8_last_member_end_deletes_group (now : Int) (userId activityName : String)
    (activityType : Int) (st : Store) (g : GroupSession)
    (hg : getGroupSession st activityName activityType = some g)
    (hkeys : ∀ k ∈ g.users.map Prod.fst, k = userId)
    (r : EndResult)
    (hr : (endUserActivity now userId activityName activityType st).2 = some r) :
    getGroupSessionUsers (endUserActivity now userId activityName activityType st).1
      activityName activityType = [] := by
  rcases hfi : (getUserActiveSessions st userId).findIdx?
      (fun s => s.activityName == activityName && s.activityType == activityType) with _ | i
  · simp [endUserActivity, hfi] at hr
  · rcases hget : (getUserActiveSessions st userId)[i]? with _ | s
    · simp [endUserActivity, hfi, hget] at hr
    · have hrem : (g.users.map Prod.fst).filter (fun id => !(id == userId)) = [] := by
        rw [List.filter_eq_nil_iff]
        intro a ha
        simp [hkeys a ha]
      simp only [getGroupSession] at hg
      unfold getGroupSessionUsers getGroupSession
      simp [endUserActivity, hfi, hget, saveGroupSession, saveUserSessions,
        saveAllActiveSessions, getAllActiveSessions, getGroupSession, hg, hrem,
        kvGet?_kvRemove_self]

/-- Witness for C8: user "u" is the single member of the "A" group session. -/
theorem c8_last_member_end_deletes_group_witness :
    getGroupSessionUsers
      (endUserActivity 5 "u" "A" 0
        ({ userSessions := [("u", [⟨"u", "u", "", "A", 0, 0⟩])],
           allActive := [⟨"u", "u", "", "A", 0, 0⟩],
           groupSessions := [(("A", 0), ⟨"A", 0, [("u", ⟨"u", "u", "", "A", 0, 0⟩)], 0⟩)],
           history := [] } : Store)).1 "A" 0 = [] :=
  c8_last_member_end_deletes_group 5 "u" "A" 0 _ ⟨"A", 0, [("u", ⟨"u", "u", "", "A", 0, 0⟩)], 0⟩
    (by decide) (by decide) ⟨SessionType.solo, 5, [], some ⟨"u", "u", "", "A", 0, 0⟩⟩ (by decide)

/-- C5: with zero history entries and zero active sessions, every period's
retrospective is the zero-valued record with N/A names, empty lists and
all-zero histograms. -/
theorem c5_empty_retrospective (tz now : Int) (period : RetroPeriod) (st : Store)
    (h1 : st.history = []) (h2 : st.allActive = []) :
    generateRetrospective tz now period st =
      { period := period, generatedAt := now,
        general := { totalHours := 0, totalSessions := 0, mostPopularActivity := "N/A",
                     mostActiveUser := "N/A", peakHour := 0, peakDay := 0 },
        users := [], activities := [],
        temporal := { byHour := List.replicate 24 0, byDayOfWeek := List.replicate 7 0 } } := by
  cases period <;>
    simp [generateRetrospective, getAllActivities, getActivityHistory, getAllActiveSessions,
      sortByDesc, h1, h2, emptyRetrospective]

/-- Witness for C5 on the empty store. -/
theorem c5_empty_retrospective_witness :
    generateRetrospective 0 777 RetroPeriod.day initStore =
      { period := RetroPeriod.day, generatedAt := 777,
        general := { totalHours := 0, totalSessions := 0, mostPopularActivity := "N/A",
                     mostActiveUser := "N/A", peakHour := 0, peakDay := 0 },
        users := [], activities := [],
        temporal := { byHour := List.replicate 24 0, byDayOfWeek := List.replicate 7 0 } } :=
  c5_empty_retrospective 0 777 RetroPeriod.day initStore rfl rfl


theorem hourIdx_lt (tz ts : Int) : hourIdx tz ts < 24 := by
  unfold hourIdx getHourFromTimestamp
  have h1 : 0 ≤ ((ts + tz).ediv 3600000).emod 24 := Int.emod_nonneg _ (by norm_num)
  have h2 : ((ts + tz).ediv 3600000).emod 24 < 24 := Int.emod_lt_of_pos _ (by norm_num)
  omega

theorem dayIdx_lt (tz ts : Int) : dayIdx tz ts < 7 := by
  unfold dayIdx getDayOfWeekFromTimestamp
  have h1 : 0 ≤ ((ts + tz).ediv 86400000 + 4).emod 7 := Int.emod_nonneg _ (by norm_num)
  have h2 : ((ts + tz).ediv 86400000 + 4).emod 7 < 7 := Int.emod_lt_of_pos _ (by norm_num)
  omega

theorem replicate_set_decomp (v : Int) :
    ∀ (i n : Nat), i < n →
      (List.replicate n (0 : Int)).set i v
        = List.replicate i 0 ++ v :: List.replicate (n - i - 1) 0
  | 0, n + 1, _ => by simp [List.replicate_succ]
  | i + 1, n + 1, h => by
    simp only [List.replicate_succ, List.set_cons_succ, List.cons_append]
    rw [replicate_set_decomp v i n (by omega)]
    have hn : n + 1 - (i + 1) - 1 = n - i - 1 := by omega
    rw [hn]

theorem getD_replicate_zero (n k : Nat) :
    (List.replicate n (0 : Int)).getD k 0 = 0 := by
  simp only [List.getD_eq_getElem?_getD, List.getElem?_replicate]
  split <;> rfl

theorem bucketAdd_replicate (n k : Nat) (v : Int) :
    bucketAdd (List.replicate n 0) k v = (List.replicate n 0).set k v := by
  unfold bucketAdd
  rw [getD_replicate_zero, zero_add]

theorem getD_zeros_append (v : Int) (B : List Int) :
    ∀ (k : Nat), (List.replicate k (0 : Int) ++ v :: B).getD k 0 = v
  | 0 => by simp
  | k + 1 => by
    rw [List.replicate_succ, List.cons_append, List.getD_cons_succ]
    exact getD_zeros_append v B k

theorem getD_bump (n k : Nat) (hk : k < n) (v : Int) :
    ((List.replicate n (0 : Int)).set k v).getD k 0 = v := by
  rw [replicate_set_decomp v k n hk]
  exact getD_zeros_append v _ k

theorem foldl_max_replicate_zero (m : Nat) (v : Int) (hv : 0 ≤ v) :
    (List.replicate m (0 : Int)).foldl max v = v := by
  induction m with
  | zero => rfl
  | succ m ih =>
    rw [List.replicate_succ, List.foldl_cons, max_eq_left hv]
    exact ih

theorem foldl_max_zeros_append (v : Int) (hv : 0 < v) (m : Nat) :
    ∀ (k : Nat),
      List.foldl max 0 (List.replicate k (0 : Int) ++ v :: List.replicate m 0) = v
  | 0 => by
    rw [List.replicate, List.nil_append, List.foldl_cons, max_eq_right hv.le]
    exact foldl_max_replicate_zero m v hv.le
  | k + 1 => by
    rw [List.replicate_succ, List.cons_append, List.foldl_cons, max_self]
    exact foldl_max_zeros_append v hv m k

theorem jsMaxList_bump (k m : Nat) (v : Int) (hv : 0 < v) :
    jsMaxList (List.replicate k (0 : Int) ++ v :: List.replicate m 0) = v := by
  cases k with
  | zero =>
    rw [List.replicate, List.nil_append]
    unfold jsMaxList
    exact foldl_max_replicate_zero m v hv.le
  | succ k =>
    rw [List.replicate_succ, List.cons_append]
    unfold jsMaxList
    exact foldl_max_zeros_append v hv m k

theorem indexOf_zeros_append (v : Int) (hv : v ≠ 0) (B : List Int) :
    ∀ (k : Nat), (List.replicate k (0 : Int) ++ v :: B).indexOf v = k
  | 0 => by
    rw [List.replicate, List.nil_append]
    exact List.indexOf_cons_self v B
  | k + 1 => by
    rw [List.replicate_succ, List.cons_append, List.indexOf_cons_ne _ (Ne.symm hv)]
    rw [indexOf_zeros_append v hv B k]

theorem peakIndex_bump (n k : Nat) (hk : k < n) (v : Int) (hv : 0 < v) :
    peakIndex ((List.replicate n (0 : Int)).set k v) = k := by
  rw [replicate_set_decomp v k n hk]
  unfold peakIndex
  rw [jsMaxList_bump k _ v hv, indexOf_zeros_append v (ne_of_gt hv) _ k]

/-- C9: for a single history entry of 3600000 ms and no active sessions, the
hour histogram holds 3600000 in the bucket of the entry's local start hour H,
the day histogram holds 3600000 in the bucket of its local start day D, and
peakHour / peakDay select exactly H and D (the first index attaining the
maximum). -/
theorem c9_single_entry_histogram_and_peak (tz now : Int) (e : ActivityHistory)
    (hd : e.duration = 3600000) :
    ((generateRetrospective tz now RetroPeriod.all
        { userSessions := [], allActive := [], groupSessions := [],
          history := [e] }).temporal.byHour).getD (hourIdx tz e.startTimestamp) 0
      = 3600000 ∧
    ((generateRetrospective tz now RetroPeriod.all
        { userSessions := [], allActive := [], groupSessions := [],
          history := [e] }).temporal.byDayOfWeek).getD (dayIdx tz e.startTimestamp) 0
      = 3600000 ∧
    (generateRetrospective tz now RetroPeriod.all
        { userSessions := [], allActive := [], groupSessions := [],
          history := [e] }).general.peakHour = hourIdx tz e.startTimestamp ∧
    (generateRetrospective tz now RetroPeriod.all
        { userSessions := [], allActive := [], groupSessions := [],
          history := [e] }).general.peakDay = dayIdx tz e.startTimestamp := by
  have hH := hourIdx_lt tz e.startTimestamp
  have hD := dayIdx_lt tz e.startTimestamp
  have htemp :
      (generateRetrospective tz now RetroPeriod.all
        { userSessions := [], allActive := [], groupSessions := [],
          history := [e] }).temporal
        = { byHour := bucketAdd (List.replicate 24 0) (hourIdx tz e.startTimestamp) e.duration,
            byDayOfWeek :=
              bucketAdd (List.replicate 7 0) (dayIdx tz e.startTimestamp) e.duration } := by
    simp [generateRetrospective, calculateTemporalDistribution, sortByDesc, insertByDesc,
      getAllActiveSessions]
  have hgen :
      (generateRetrospective tz now RetroPeriod.all
        { userSessions := [], allActive := [], groupSessions := [],
          history := [e] }).general.peakHour
          = peakIndex
              (bucketAdd (List.replicate 24 0) (hourIdx tz e.startTimestamp) e.duration) ∧
      (generateRetrospective tz now RetroPeriod.all
        { userSessions := [], allActive := [], groupSessions := [],
          history := [e] }).general.peakDay
          = peakIndex
              (bucketAdd (List.replicate 7 0) (dayIdx tz e.startTimestamp) e.duration) := by
    constructor <;>
      simp [generateRetrospective, calculateTemporalDistribution, sortByDesc, insertByDesc,
        getAllActiveSessions]
  rw [bucketAdd_replicate, bucketAdd_replicate, hd] at htemp hgen
  refine ⟨?_, ?_, ?_, ?_⟩
  · rw [htemp]
    exact getD_bump 24 _ hH 3600000
  · rw [htemp]
    exact getD_bump 7 _ hD 3600000
  · rw [hgen.1]
    exact peakIndex_bump 24 _ hH 3600000 (by norm_num)
  · rw [hgen.2]
    exact peakIndex_bump 7 _ hD 3600000 (by norm_num)

/-- Witness for C9 at hour 5 UTC (timestamp 18000000) on epoch day 0 (a
Thursday, day index 4). -/
theorem c9_single_entry_histogram_and_peak_witness :
    ((generateRetrospective 0 999999999 RetroPeriod.all
        { userSessions := [], allActive := [], groupSessions := [],
          history := [⟨"A", "A", "Chess", 0, 18000000, 21600000, 3600000,
            SessionType.solo⟩] }).temporal.byHour).getD (hourIdx 0 18000000) 0 = 3600000 ∧
    ((generateRetrospective 0 999999999 RetroPeriod.all
        { userSessions := [], allActive := [], groupSessions := [],
          history := [⟨"A", "A", "Chess", 0, 18000000, 21600000, 3600000,
            SessionType.solo⟩] }).temporal.byDayOfWeek).getD (dayIdx 0 18000000) 0 = 3600000 ∧
    (generateRetrospective 0 999999999 RetroPeriod.all
        { userSessions := [], allActive := [], groupSessions := [],
          history := [⟨"A", "A", "Chess", 0, 18000000, 21600000, 3600000,
            SessionType.solo⟩] }).general.peakHour = hourIdx 0 18000000 ∧
    (generateRetrospective 0 999999999 RetroPeriod.all
        { userSessions := [], allActive := [], groupSessions := [],
          history := [⟨"A", "A", "Chess", 0, 18000000, 21600000, 3600000,
            SessionType.solo⟩] }).general.peakDay = dayIdx 0 18000000 :=
  c9_single_entry_histogram_and_peak 0 999999999
    ⟨"A", "A", "Chess", 0, 18000000, 21600000, 3600000, SessionType.solo⟩ rfl

/-- C1: the claimed identity `totalSessions = in-window history count +
in-window active count` fails: the history loop already counts each history
entry once, and the final pass adds the history count again, so one in-window
history entry and no active sessions yield `totalSessions = 2`. -/
theorem c1_totalSessions_double_counts_history :
    (getActivitiesByPeriod Period.day 86400000
        { userSessions := [], allActive := [], groupSessions := [],
          history := [⟨"u", "u", "A", 0, 0, 1000, 1000, SessionType.solo⟩] }).map
      (fun g => (g.totalSessions, g.historySessions.length, g.activeSessions.length))
      = [(2, 1, 0)] := by
  decide

/-- C4: in the activities CSV table every field is escaped twice (the rows are
built from escaped fields and the final join maps `escapeCSV` over them
again), so the emitted field for activity name "Foo, Bar" is
`"""Foo, Bar"""`, which standard CSV parsing reads back as `"Foo, Bar"` — not
the original string.  A single application of `escapeCSV` (as in the users and
temporal tables) does round-trip. -/
theorem c4_activities_table_double_escape_breaks_roundtrip :
    ((activityRow ⟨"Foo, Bar", 0, 0, 0, 0, 0, 0, 0, 0⟩).map escapeCSV).head?
        = some ("\"\"\"Foo, Bar\"\"\"".toList) ∧
    csvParseField ("\"\"\"Foo, Bar\"\"\"".toList) = "\"Foo, Bar\"".toList ∧
    csvParseField ("\"\"\"Foo, Bar\"\"\"".toList) ≠ "Foo, Bar".toList ∧
    csvParseField (escapeCSV ("Foo, Bar".toList)) = "Foo, Bar".toList := by
  decide

end DiscordBot
